import Mathlib

/-!
Shallow embedding of the glean-core subsystems under verification:
the time-unit wire conversion (`src/glean-core/src/metrics/time_unit.rs`),
the error taxonomy and FFI error erasure (`src/glean-core/src/error.rs`),
the error-accounting subsystem (`src/glean-core/src/error_recording.rs`),
and the ping-type FFI constructor (`src/glean-core/ffi/src/ping_type.rs`).
-/

/-! ## Error taxonomy (`error.rs`) -/

/-- Modelled from the spec: a handle error from the cross-language handle
registry (the `ffi_support` crate, outside this repository), carrying its
own message text. -/
structure HandleError where
  message : String
deriving DecidableEq

/-- Modelled from the spec: a filesystem/IO failure (`std::io::Error`,
outside this repository), carrying its own message text. -/
structure IoError where
  message : String
deriving DecidableEq

/-- Modelled from the spec: a durable-store failure (the `rkv` crate,
outside this repository), carrying its own message text. -/
structure StoreError where
  message : String
deriving DecidableEq

/-- Modelled from the spec: a serialization failure (the `serde_json` crate,
outside this repository), carrying its own message text. -/
structure JsonError where
  message : String
deriving DecidableEq

/-- The closed error-kind enumeration of `error.rs`, each variant wrapping
its cause. -/
inductive ErrorKind
  | Lifetime (v : Int)
  | Handle (e : HandleError)
  | IoError (e : IoError)
  | Rkv (e : StoreError)
  | Json (e : JsonError)
  | TimeUnit (v : Int)
deriving DecidableEq

/-- The display string of each `ErrorKind`, from the `#[fail(display = ...)]`
attributes in `error.rs`. -/
def ErrorKind.display : ErrorKind → String
  | .Lifetime v => "Lifetime conversion from " ++ toString v ++ " failed"
  | .Handle _ => "Invalid handle"
  | .IoError _ => "An I/O error occurred."
  | .Rkv _ => "An Rkv error occurred."
  | .Json _ => "A JSON error occurred."
  | .TimeUnit v => "TimeUnit conversion from " ++ toString v ++ " failed"

/-- The crate's `Error` type: a `Context<ErrorKind>` (the backtrace carried
by the context is irrelevant to the observable behaviour and omitted). -/
structure Error where
  kind : ErrorKind
deriving DecidableEq

/-- `Display for Error` forwards to the inner context, which displays the
wrapped `ErrorKind`. -/
def Error.display (e : Error) : String := e.kind.display

/-- `From<ErrorKind> for Error`. -/
def Error.fromKind (k : ErrorKind) : Error := ⟨k⟩

/-- `From<HandleError> for Error`. -/
def Error.fromHandleError (e : HandleError) : Error := ⟨ErrorKind.Handle e⟩

/-- `From<io::Error> for Error`. -/
def Error.fromIoError (e : IoError) : Error := ⟨ErrorKind.IoError e⟩

/-- `From<StoreError> for Error`. -/
def Error.fromStoreError (e : StoreError) : Error := ⟨ErrorKind.Rkv e⟩

/-- `From<serde_json::error::Error> for Error`. -/
def Error.fromJsonError (e : JsonError) : Error := ⟨ErrorKind.Json e⟩

/-- The FFI boundary error representation (`ffi_support::ExternError`):
a numeric code plus a message string. -/
structure ExternError where
  code : Int
  message : String
deriving DecidableEq

/-- `From<Error> for ExternError`: the catch-all code 42 plus the error's
display string. -/
def Error.toExternError (e : Error) : ExternError := ⟨42, e.display⟩

/-! ## Time unit (`metrics/time_unit.rs`) -/

/-- The resolutions supported by time-related metric types, in the
declaration order of `time_unit.rs`. -/
inductive TimeUnit
  | Nanosecond
  | Microsecond
  | Millisecond
  | Second
  | Minute
  | Hour
  | Day
deriving DecidableEq

/-- The ordinal of each enumeration member in the declaration order of
`time_unit.rs`. -/
def TimeUnit.ordinal : TimeUnit → Nat
  | .Nanosecond => 0
  | .Microsecond => 1
  | .Millisecond => 2
  | .Second => 3
  | .Minute => 4
  | .Hour => 5
  | .Day => 6

/-- `TimeUnit::format_pattern`: the fixed chrono pattern per resolution. -/
def TimeUnit.format_pattern : TimeUnit → String
  | .Nanosecond => "%Y-%m-%dT%H:%M:%S%.f%:z"
  | .Microsecond => "%Y-%m-%dT%H:%M:%S%.6f%:z"
  | .Millisecond => "%Y-%m-%dT%H:%M:%S%.3f%:z"
  | .Second => "%Y-%m-%dT%H:%M:%S%:z"
  | .Minute => "%Y-%m-%dT%H:%M%:z"
  | .Hour => "%Y-%m-%dT%H%:z"
  | .Day => "%Y-%m-%d%:z"

/-- `TryFrom<i32> for TimeUnit`: the match of `time_unit.rs`, the fallback
arm raising `ErrorKind::TimeUnit(e)` converted into `Error`. -/
def TimeUnit.try_from (value : Int) : Except Error TimeUnit :=
  if value = 0 then .ok .Nanosecond
  else if value = 1 then .ok .Microsecond
  else if value = 2 then .ok .Millisecond
  else if value = 3 then .ok .Second
  else if value = 4 then .ok .Minute
  else if value = 5 then .ok .Hour
  else if value = 6 then .ok .Day
  else .error (Error.fromKind (ErrorKind.TimeUnit value))

/-! ## Error recording (`error_recording.rs`) -/

/-- The metric lifetimes (reset cadences) named by the spec's glossary. -/
inductive Lifetime
  | Ping
  | User
  | Application
deriving DecidableEq

/-- `CommonMetricData`: the metric metadata. Following the note in
`error_recording.rs`, a labeled instance encodes its label into the name
as `name/label`. -/
structure CommonMetricData where
  name : String
  category : String
  send_in_pings : List String
  lifetime : Lifetime
  disabled : Bool
deriving DecidableEq

/-- Modelled from the spec: `Default::default()` for the metadata fields
`record_error` does not set explicitly (only `disabled` survives into the
synthesized counter). -/
def CommonMetricData.default : CommonMetricData :=
  ⟨"", "", [], Lifetime.Ping, false⟩

/-- Modelled from the spec: `CommonMetricData::identifier` is
`category.name` (a labeled instance carries its `/label` suffix inside
`name`, hence `category.name/label`). -/
def CommonMetricData.identifier (m : CommonMetricData) : String :=
  m.category ++ "." ++ m.name

/-- `identifier.splitn(2, '/').next().unwrap()`: the segment of the string
before its first `/`, or the whole string when it has none. -/
def splitFirst (s : String) : String :=
  String.mk (s.data.takeWhile (fun c => c != '/'))

/-- The possible error types for metric recording. -/
inductive ErrorType
  | InvalidValue
  | InvalidLabel
deriving DecidableEq

/-- `ErrorType::to_string`: the error type's metric name token. -/
def ErrorType.to_string : ErrorType → String
  | .InvalidValue => "invalid_value"
  | .InvalidLabel => "invalid_label"

/-- The routing-set computation of `record_error`: clone `send_in_pings`
and push `"metrics"` when it is not already contained. -/
def addMetricsPing (send_in_pings : List String) : List String :=
  if "metrics" ∈ send_in_pings then send_in_pings
  else send_in_pings ++ ["metrics"]

/-- The `CommonMetricData` of the counter synthesized by `record_error`:
name `<errorToken>/<first segment of the identifier>`, category
`glean.error`, lifetime `Ping`, routed to the computed set; the remaining
fields come from `Default::default()`. -/
def record_error_meta (meta : CommonMetricData) (error : ErrorType) :
    CommonMetricData :=
  { name := error.to_string ++ "/" ++ splitFirst meta.identifier
    category := "glean.error"
    lifetime := Lifetime.Ping
    send_in_pings := addMetricsPing meta.send_in_pings
    disabled := CommonMetricData.default.disabled }

/-- Modelled from the spec: the Glean engine as its durable ordered store
keyed by string — a counter value per (ping name, metric identifier) key,
`none` when the key is absent. -/
structure Glean where
  db : String → String → Option Int

/-- Modelled from the spec: a fresh engine with an empty store. -/
def Glean.new : Glean := ⟨fun _ _ => none⟩

/-- Modelled from the spec: `CounterMetric::add` atomically increments the
counter keyed by the metric's identifier by `amount`, in every ping of the
metric's `send_in_pings` (an absent key counts as 0). -/
def counter_add (glean : Glean) (meta : CommonMetricData) (amount : Int) :
    Glean :=
  ⟨fun ping id =>
    if ping ∈ meta.send_in_pings ∧ id = meta.identifier then
      some ((glean.db ping id).getD 0 + amount)
    else
      glean.db ping id⟩

/-- Modelled from the spec: `CounterMetric::test_get_value` looks the
counter up in the named ping's snapshot of the store. -/
def counter_test_get_value (glean : Glean) (meta : CommonMetricData)
    (ping_name : String) : Option Int :=
  glean.db ping_name meta.identifier

/-- `record_error`: synthesize the error counter and increment it by 1.
The message is only logged on a side channel and never stored. -/
def record_error (glean : Glean) (meta : CommonMetricData)
    (error : ErrorType) (_message : String) : Glean :=
  counter_add glean (record_error_meta meta error) 1

/-- The `CommonMetricData` of the counter reconstructed by
`test_get_num_recorded_errors`: the name uses the full identifier
(label included) and `..meta.clone()` keeps the remaining fields. -/
def test_get_meta (meta : CommonMetricData) (error : ErrorType) :
    CommonMetricData :=
  { meta with
    name := error.to_string ++ "/" ++ meta.identifier
    category := "glean.error"
    lifetime := Lifetime.Ping }

/-- `test_get_num_recorded_errors`. The outer `none` models the Rust panic
raised by `&meta.send_in_pings[0]` when `ping_name` is omitted and
`send_in_pings` is empty; otherwise the result is the source's
`Result<i32, String>`. -/
def test_get_num_recorded_errors (glean : Glean) (meta : CommonMetricData)
    (error : ErrorType) (ping_name : Option String) :
    Option (Except String Int) :=
  match (match ping_name with
         | some p => some p
         | none => meta.send_in_pings.head?) with
  | none => none
  | some use_ping_name =>
    let metric := test_get_meta meta error
    match counter_test_get_value glean metric use_ping_name with
    | some v => some (Except.ok v)
    | none => some (Except.error
        ("No error recorded for " ++ metric.identifier
          ++ " in \x27" ++ use_ping_name ++ "\x27 store"))

/-! ## Ping type FFI (`ffi/src/ping_type.rs`) -/

/-- Modelled from the spec: `PingType` is `{name, includeClientId}`. -/
structure PingType where
  name : String
  include_client_id : Bool
deriving DecidableEq

/-- Modelled from the spec: `PingType::new(name, include_client_id)` — the
total constructor. -/
def PingType.new (name : String) (include_client_id : Bool) : PingType :=
  ⟨name, include_client_id⟩

/-- The constructor closure `glean_new_ping_type` passes to
`PING_TYPES.insert_with_log`: always `Ok`, converting the raw `u8`
argument (modelled as `Nat`) with `include_client_id != 0`. -/
def glean_new_ping_type_ctor (ping_name : String)
    (include_client_id : Nat) : Except Error PingType :=
  Except.ok (PingType.new ping_name (include_client_id != 0))

/-! ## Test scenario of the spec (`error_recording.rs`, §8) -/

/-- The metric of the spec's error-recording scenario:
`send_in_pings = ["store1", "store2"]`. -/
def scenarioMeta : CommonMetricData :=
  { name := "string_metric"
    category := "telemetry"
    send_in_pings := ["store1", "store2"]
    lifetime := Lifetime.User
    disabled := false }

/-- The engine state after recording one `InvalidValue` and one
`InvalidLabel` error for `scenarioMeta` on a fresh engine. -/
def scenarioGlean : Glean :=
  record_error
    (record_error Glean.new scenarioMeta ErrorType.InvalidValue "Invalid value")
    scenarioMeta ErrorType.InvalidLabel "Invalid label"

/-- A concrete labeled metric instance (label encoded in the name). -/
def labeledMeta : CommonMetricData :=
  { name := "string_metric/label1"
    category := "telemetry"
    send_in_pings := ["store1"]
    lifetime := Lifetime.User
    disabled := false }

/-! ## Theorems -/

/-- Claim C1: for every integer v in [0,6], `TryFrom<i32> for TimeUnit`
succeeds and yields the enumeration member at ordinal v; for every v
outside [0,6] (negative values included) it fails with a TimeUnit error
carrying the offending raw value v. -/
theorem c1_time_unit_try_from (v : Int) :
    (0 ≤ v → v ≤ 6 →
      ∃ u : TimeUnit, TimeUnit.try_from v = Except.ok u ∧ (u.ordinal : Int) = v) ∧
    (v < 0 ∨ 6 < v →
      TimeUnit.try_from v = Except.error (Error.fromKind (ErrorKind.TimeUnit v))) := by
  constructor
  · intro h0 h6
    interval_cases v
    · exact ⟨.Nanosecond, rfl, rfl⟩
    · exact ⟨.Microsecond, rfl, rfl⟩
    · exact ⟨.Millisecond, rfl, rfl⟩
    · exact ⟨.Second, rfl, rfl⟩
    · exact ⟨.Minute, rfl, rfl⟩
    · exact ⟨.Hour, rfl, rfl⟩
    · exact ⟨.Day, rfl, rfl⟩
  · intro h
    have h0 : v ≠ 0 := by rcases h with h | h <;> omega
    have h1 : v ≠ 1 := by rcases h with h | h <;> omega
    have h2 : v ≠ 2 := by rcases h with h | h <;> omega
    have h3 : v ≠ 3 := by rcases h with h | h <;> omega
    have h4 : v ≠ 4 := by rcases h with h | h <;> omega
    have h5 : v ≠ 5 := by rcases h with h | h <;> omega
    have h6 : v ≠ 6 := by rcases h with h | h <;> omega
    simp [TimeUnit.try_from, h0, h1, h2, h3, h4, h5, h6]

/-- Witness for C1: the conversion at 3 and at 7. -/
theorem c1_witness :
    (∃ u : TimeUnit, TimeUnit.try_from 3 = Except.ok u ∧ (u.ordinal : Int) = 3) ∧
    TimeUnit.try_from 7 = Except.error (Error.fromKind (ErrorKind.TimeUnit 7)) :=
  ⟨(c1_time_unit_try_from 3).1 (by norm_num) (by norm_num),
   (c1_time_unit_try_from 7).2 (by norm_num)⟩

/-- Claim C8: `format_pattern` returns the fixed pattern of the table for
every `TimeUnit`, and every pattern includes the timezone offset
specifier. -/
theorem c8_format_patterns :
    TimeUnit.format_pattern .Nanosecond = "%Y-%m-%dT%H:%M:%S%.f%:z" ∧
    TimeUnit.format_pattern .Microsecond = "%Y-%m-%dT%H:%M:%S%.6f%:z" ∧
    TimeUnit.format_pattern .Millisecond = "%Y-%m-%dT%H:%M:%S%.3f%:z" ∧
    TimeUnit.format_pattern .Second = "%Y-%m-%dT%H:%M:%S%:z" ∧
    TimeUnit.format_pattern .Minute = "%Y-%m-%dT%H:%M%:z" ∧
    TimeUnit.format_pattern .Hour = "%Y-%m-%dT%H%:z" ∧
    TimeUnit.format_pattern .Day = "%Y-%m-%d%:z" ∧
    ∀ t : TimeUnit, ∃ p : String, TimeUnit.format_pattern t = p ++ "%:z" := by
  refine ⟨rfl, rfl, rfl, rfl, rfl, rfl, rfl, ?_⟩
  intro t
  cases t
  · exact ⟨"%Y-%m-%dT%H:%M:%S%.f", rfl⟩
  · exact ⟨"%Y-%m-%dT%H:%M:%S%.6f", rfl⟩
  · exact ⟨"%Y-%m-%dT%H:%M:%S%.3f", rfl⟩
  · exact ⟨"%Y-%m-%dT%H:%M:%S", rfl⟩
  · exact ⟨"%Y-%m-%dT%H:%M", rfl⟩
  · exact ⟨"%Y-%m-%dT%H", rfl⟩
  · exact ⟨"%Y-%m-%d", rfl⟩

/-- Counterexample for C6: converting an IO failure whose own message is
"custom io failure" yields the fixed boundary message
"An I/O error occurred.", which is not the original message; two IO
failures with different messages convert to errors with identical
boundary messages, so the original text is not preserved. -/
theorem c6_counterexample :
    Error.display (Error.fromIoError ⟨"custom io failure"⟩) = "An I/O error occurred." ∧
    Error.display (Error.fromIoError ⟨"custom io failure"⟩) ≠ "custom io failure" ∧
    Error.display (Error.fromIoError ⟨"custom io failure"⟩)
      = Error.display (Error.fromIoError ⟨"another message"⟩) := by
  refine ⟨rfl, ?_, rfl⟩
  decide

/-- Claim C6 (amended): conversion from each underlying failure source
into `Error` is total and tags the cause with the corresponding
`ErrorKind`; the message produced at the boundary is the fixed description
of that kind, independent of the underlying failure's own message text. -/
theorem c6_conversions_total (h : HandleError) (i : IoError)
    (s : StoreError) (j : JsonError) :
    Error.fromHandleError h = ⟨ErrorKind.Handle h⟩ ∧
    (Error.fromHandleError h).display = "Invalid handle" ∧
    Error.fromIoError i = ⟨ErrorKind.IoError i⟩ ∧
    (Error.fromIoError i).display = "An I/O error occurred." ∧
    Error.fromStoreError s = ⟨ErrorKind.Rkv s⟩ ∧
    (Error.fromStoreError s).display = "An Rkv error occurred." ∧
    Error.fromJsonError j = ⟨ErrorKind.Json j⟩ ∧
    (Error.fromJsonError j).display = "A JSON error occurred." :=
  ⟨rfl, rfl, rfl, rfl, rfl, rfl, rfl, rfl⟩

/-- Claim C7: erasing any internal `Error` to the FFI boundary yields the
catch-all code 42 together with the error's display message; the code does
not differ by error kind. -/
theorem c7_extern_error (e : Error) :
    e.toExternError.code = 42 ∧
    e.toExternError.message = e.display ∧
    ∀ e2 : Error, e.toExternError.code = e2.toExternError.code :=
  ⟨rfl, rfl, fun _ => rfl⟩

/-- Claim C2: the routing set computed by `record_error` is
`send_in_pings` with its order preserved and `"metrics"` appended at the
end only when absent; whenever `send_in_pings` contains `"metrics"` at
most once, the routing set contains it exactly once. -/
theorem c2_routing_set (meta : CommonMetricData) (error : ErrorType) :
    ("metrics" ∈ meta.send_in_pings →
      (record_error_meta meta error).send_in_pings = meta.send_in_pings) ∧
    ("metrics" ∉ meta.send_in_pings →
      (record_error_meta meta error).send_in_pings
        = meta.send_in_pings ++ ["metrics"]) ∧
    (meta.send_in_pings.count "metrics" ≤ 1 →
      ((record_error_meta meta error).send_in_pings).count "metrics" = 1) := by
  have hpings : (record_error_meta meta error).send_in_pings
      = addMetricsPing meta.send_in_pings := rfl
  refine ⟨?_, ?_, ?_⟩
  · intro h
    rw [hpings]
    simp [addMetricsPing, h]
  · intro h
    rw [hpings]
    simp [addMetricsPing, h]
  · intro h
    rw [hpings]
    by_cases hm : "metrics" ∈ meta.send_in_pings
    · have h1 : 0 < meta.send_in_pings.count "metrics" := List.count_pos_iff.mpr hm
      simp only [addMetricsPing, if_pos hm]
      omega
    · simp [addMetricsPing, hm, List.count_append, List.count_eq_zero.mpr hm]

/-- Witness for C2: the routing set of a metric routed to `["store1"]`,
and the exactly-once count when `"metrics"` is already present. -/
theorem c2_witness :
    (record_error_meta ⟨"m", "cat", ["store1"], Lifetime.User, false⟩
        ErrorType.InvalidValue).send_in_pings = ["store1", "metrics"] ∧
    ((record_error_meta ⟨"m", "cat", ["store1", "metrics"], Lifetime.User, false⟩
        ErrorType.InvalidValue).send_in_pings).count "metrics" = 1 :=
  ⟨(c2_routing_set ⟨"m", "cat", ["store1"], Lifetime.User, false⟩
      ErrorType.InvalidValue).2.1 (by decide),
   (c2_routing_set ⟨"m", "cat", ["store1", "metrics"], Lifetime.User, false⟩
      ErrorType.InvalidValue).2.2 (by decide)⟩

/-- Helper: `takeWhile` keeps a prefix that wholly satisfies `p` and stops
at the first element that does not. -/
theorem takeWhile_append_stop (p : Char → Bool) (xs : List Char)
    (hxs : ∀ c ∈ xs, p c = true) (y : Char) (hy : p y = false)
    (ys : List Char) :
    (xs ++ y :: ys).takeWhile p = xs := by
  induction xs with
  | nil => simp [List.takeWhile_cons, hy]
  | cons a as ih =>
    have ha : p a = true := hxs a (by simp)
    have has : ∀ c ∈ as, p c = true := fun c hc => hxs c (by simp [hc])
    simp [List.takeWhile_cons, ha, ih has]

/-- Helper: a list containing `/` is not fixed by taking the longest
slash-free prefix. -/
theorem takeWhile_slash_ne_self (l : List Char) (h : '/' ∈ l) :
    l.takeWhile (fun c => c != '/') ≠ l := by
  intro he
  have hm : '/' ∈ l.takeWhile (fun c => c != '/') := by rw [he]; exact h
  have := List.mem_takeWhile_imp hm
  simp at this

/-- Claim C3: `record_error` synthesizes a counter named
`<errorToken>/<baseName>` where `baseName` is the identifier's first
segment before a `/` (so a trailing `/label` suffix is stripped), in
category `glean.error`, with lifetime `Ping`; the tokens are
`invalid_value` and `invalid_label`. -/
theorem c3_synthesized_counter (meta : CommonMetricData) (error : ErrorType) :
    (record_error_meta meta error).name
        = error.to_string ++ "/" ++ splitFirst meta.identifier ∧
    (record_error_meta meta error).category = "glean.error" ∧
    (record_error_meta meta error).lifetime = Lifetime.Ping ∧
    ErrorType.to_string ErrorType.InvalidValue = "invalid_value" ∧
    ErrorType.to_string ErrorType.InvalidLabel = "invalid_label" ∧
    (∀ base label : String, meta.name = base ++ "/" ++ label →
      (∀ c ∈ meta.category.data, c ≠ '/') → (∀ c ∈ base.data, c ≠ '/') →
      splitFirst meta.identifier = meta.category ++ "." ++ base) := by
  refine ⟨rfl, rfl, rfl, rfl, rfl, ?_⟩
  intro base label hname hcat hbase
  apply String.ext
  have hdot : ("." : String).data = ['.'] := rfl
  have hslash : ("/" : String).data = ['/'] := rfl
  have hid : meta.identifier.data
      = (meta.category.data ++ '.' :: base.data) ++ '/' :: label.data := by
    simp [CommonMetricData.identifier, hname, String.data_append, hdot, hslash]
  have hxs : ∀ c ∈ meta.category.data ++ '.' :: base.data,
      (fun c => c != '/') c = true := by
    intro c hc
    have hne : c ≠ '/' := by
      rcases List.mem_append.mp hc with h | h
      · exact hcat c h
      · rcases List.mem_cons.mp h with h | h
        · subst h; decide
        · exact hbase c h
    exact bne_iff_ne.mpr hne
  have h1 : (splitFirst meta.identifier).data
      = meta.identifier.data.takeWhile (fun c => c != '/') := rfl
  rw [h1, hid, takeWhile_append_stop _ _ hxs '/' rfl]
  simp [String.data_append, hdot]

/-- Witness for C3: stripping the label of a concrete labeled metric. -/
theorem c3_witness :
    splitFirst (CommonMetricData.identifier
        ⟨"metric/label1", "telemetry", ["store1"], Lifetime.User, false⟩)
      = "telemetry" ++ "." ++ "metric" ∧
    (record_error_meta
        ⟨"metric/label1", "telemetry", ["store1"], Lifetime.User, false⟩
        ErrorType.InvalidLabel).category = "glean.error" :=
  ⟨(c3_synthesized_counter
      ⟨"metric/label1", "telemetry", ["store1"], Lifetime.User, false⟩
      ErrorType.InvalidLabel).2.2.2.2.2 "metric" "label1" rfl
      (by decide) (by decide),
   (c3_synthesized_counter
      ⟨"metric/label1", "telemetry", ["store1"], Lifetime.User, false⟩
      ErrorType.InvalidLabel).2.1⟩

/-- Claim C5: `test_get_num_recorded_errors` reconstructs the counter name
from the full identifier (label included) while `record_error` strips the
label, so for every labeled metric instance the queried name differs from
the recorded name. -/
theorem c5_label_asymmetry (meta : CommonMetricData) (error : ErrorType)
    (h : '/' ∈ meta.name.data) :
    (test_get_meta meta error).name = error.to_string ++ "/" ++ meta.identifier ∧
    (record_error_meta meta error).name
        = error.to_string ++ "/" ++ splitFirst meta.identifier ∧
    (test_get_meta meta error).name ≠ (record_error_meta meta error).name := by
  refine ⟨rfl, rfl, ?_⟩
  intro he
  have hd := congrArg String.data he
  simp only [String.data_append] at hd
  have h2 : meta.identifier.data = (splitFirst meta.identifier).data :=
    List.append_cancel_left hd
  have hmem : '/' ∈ meta.identifier.data := by
    show '/' ∈ (meta.category ++ "." ++ meta.name).data
    rw [String.data_append]
    exact List.mem_append_right _ h
  exact takeWhile_slash_ne_self meta.identifier.data hmem h2.symm

/-- Witness for C5: the asymmetry at a concrete labeled metric. -/
theorem c5_witness :
    (test_get_meta labeledMeta ErrorType.InvalidValue).name
        = ErrorType.to_string ErrorType.InvalidValue ++ "/"
          ++ labeledMeta.identifier ∧
    (record_error_meta labeledMeta ErrorType.InvalidValue).name
        = ErrorType.to_string ErrorType.InvalidValue ++ "/"
          ++ splitFirst labeledMeta.identifier ∧
    (test_get_meta labeledMeta ErrorType.InvalidValue).name
        ≠ (record_error_meta labeledMeta ErrorType.InvalidValue).name :=
  c5_label_asymmetry labeledMeta ErrorType.InvalidValue (by decide)

/-- Helper: the store contents after the two recordings of the scenario —
a count of 1 for each synthesized error counter in each of the three
routed pings, and nothing else. -/
theorem scenarioGlean_db (ping id : String) :
    scenarioGlean.db ping id =
      if ping ∈ ["store1", "store2", "metrics"]
          ∧ id = "glean.error.invalid_label/telemetry.string_metric" then
        some 1
      else if ping ∈ ["store1", "store2", "metrics"]
          ∧ id = "glean.error.invalid_value/telemetry.string_metric" then
        some 1
      else none := by
  have hpv : (record_error_meta scenarioMeta ErrorType.InvalidValue).send_in_pings
      = ["store1", "store2", "metrics"] := by decide
  have hpl : (record_error_meta scenarioMeta ErrorType.InvalidLabel).send_in_pings
      = ["store1", "store2", "metrics"] := by decide
  have hiv : (record_error_meta scenarioMeta ErrorType.InvalidValue).identifier
      = "glean.error.invalid_value/telemetry.string_metric" := by decide
  have hil : (record_error_meta scenarioMeta ErrorType.InvalidLabel).identifier
      = "glean.error.invalid_label/telemetry.string_metric" := by decide
  show (counter_add
      (counter_add Glean.new (record_error_meta scenarioMeta ErrorType.InvalidValue) 1)
      (record_error_meta scenarioMeta ErrorType.InvalidLabel) 1).db ping id = _
  simp only [counter_add, Glean.new, hpv, hpl, hiv, hil]
  split_ifs with h1 h2 h3
  · exact absurd (h1.2 ▸ h2.2) (by decide)
  · rfl
  · rfl
  · rfl

/-- Claim C4: in the spec's scenario (one InvalidValue and one
InvalidLabel error recorded for a metric with
`send_in_pings = ["store1", "store2"]`), `test_get_num_recorded_errors`
returns 1 for every (errorType, store) pair over `store1`, `store2` and
`metrics`, and fails with the "No error recorded" message for every other
store name. -/
theorem c4_scenario_counts :
    (∀ error : ErrorType, ∀ store ∈ (["store1", "store2", "metrics"] : List String),
      test_get_num_recorded_errors scenarioGlean scenarioMeta error (some store)
        = some (Except.ok 1)) ∧
    (∀ error : ErrorType, ∀ store : String,
      store ∉ (["store1", "store2", "metrics"] : List String) →
      test_get_num_recorded_errors scenarioGlean scenarioMeta error (some store)
        = some (Except.error ("No error recorded for "
            ++ (test_get_meta scenarioMeta error).identifier
            ++ " in \x27" ++ store ++ "\x27 store"))) := by
  constructor
  · intro error store hs
    fin_cases hs <;> cases error <;> rfl
  · intro error store h
    have hstep : test_get_num_recorded_errors scenarioGlean scenarioMeta error (some store)
        = match scenarioGlean.db store (test_get_meta scenarioMeta error).identifier with
          | some v => some (Except.ok v)
          | none => some (Except.error ("No error recorded for "
              ++ (test_get_meta scenarioMeta error).identifier
              ++ " in \x27" ++ store ++ "\x27 store")) := rfl
    have hdb : scenarioGlean.db store (test_get_meta scenarioMeta error).identifier
        = none := by
      rw [scenarioGlean_db]
      rw [if_neg fun hc => h hc.1, if_neg fun hc => h hc.1]
    rw [hstep, hdb]

/-- Witness for C4: one present count and one absent store. -/
theorem c4_witness :
    test_get_num_recorded_errors scenarioGlean scenarioMeta
        ErrorType.InvalidValue (some "store1") = some (Except.ok 1) ∧
    test_get_num_recorded_errors scenarioGlean scenarioMeta
        ErrorType.InvalidLabel (some "other")
      = some (Except.error ("No error recorded for "
          ++ (test_get_meta scenarioMeta ErrorType.InvalidLabel).identifier
          ++ " in \x27" ++ "other" ++ "\x27 store")) :=
  ⟨c4_scenario_counts.1 ErrorType.InvalidValue "store1" (by simp),
   c4_scenario_counts.2 ErrorType.InvalidLabel "other" (by decide)⟩

/-- Claim C9: with `ping_name` omitted, `test_get_num_recorded_errors`
unconditionally reads `send_in_pings[0]` as the default ping name: on an
empty `send_in_pings` the call panics (modelled as `none`), and on a
non-empty one it behaves as if queried at the first configured ping and
does not panic. -/
theorem c9_default_ping_name (glean : Glean) (meta : CommonMetricData)
    (error : ErrorType) :
    (meta.send_in_pings = [] →
      test_get_num_recorded_errors glean meta error none = none) ∧
    (∀ p ps, meta.send_in_pings = p :: ps →
      test_get_num_recorded_errors glean meta error none
        = test_get_num_recorded_errors glean meta error (some p)) ∧
    (meta.send_in_pings ≠ [] →
      (test_get_num_recorded_errors glean meta error none).isSome = true) := by
  refine ⟨?_, ?_, ?_⟩
  · intro h
    simp [test_get_num_recorded_errors, h]
  · intro p ps h
    simp [test_get_num_recorded_errors, h]
  · intro h
    rcases List.exists_cons_of_ne_nil h with ⟨p, ps, hp⟩
    simp only [test_get_num_recorded_errors, hp, List.head?_cons]
    cases hv : counter_test_get_value glean (test_get_meta meta error) p <;>
      simp [hv]

/-- Witness for C9: the panic on an empty `send_in_pings` and the default
ping on the scenario metric. -/
theorem c9_witness :
    test_get_num_recorded_errors Glean.new
        ⟨"m", "cat", [], Lifetime.User, false⟩ ErrorType.InvalidValue none
      = none ∧
    test_get_num_recorded_errors Glean.new scenarioMeta
        ErrorType.InvalidValue none
      = test_get_num_recorded_errors Glean.new scenarioMeta
          ErrorType.InvalidValue (some "store1") :=
  ⟨(c9_default_ping_name Glean.new
      ⟨"m", "cat", [], Lifetime.User, false⟩ ErrorType.InvalidValue).1 rfl,
   (c9_default_ping_name Glean.new scenarioMeta
      ErrorType.InvalidValue).2.1 "store1" ["store2"] rfl⟩

/-- Claim C10: the constructor closure of `glean_new_ping_type` always
returns Ok, and the constructed `PingType` keeps the name and interprets
the raw byte as true exactly when it is nonzero. -/
theorem c10_new_ping_type (ping_name : String) (b : Nat) :
    glean_new_ping_type_ctor ping_name b
      = Except.ok (PingType.new ping_name (b != 0)) ∧
    (∃ pt : PingType, glean_new_ping_type_ctor ping_name b = Except.ok pt) ∧
    ∀ pt : PingType, glean_new_ping_type_ctor ping_name b = Except.ok pt →
      pt.name = ping_name ∧ (pt.include_client_id = true ↔ b ≠ 0) := by
  refine ⟨rfl, ⟨_, rfl⟩, ?_⟩
  intro pt h
  have h2 : PingType.new ping_name (b != 0) = pt := by
    simpa [glean_new_ping_type_ctor] using h
  rw [← h2]
  exact ⟨rfl, bne_iff_ne⟩

/-- Witness for C10: the constructor at a concrete name and byte. -/
theorem c10_witness :
    glean_new_ping_type_ctor "custom" 1
      = Except.ok (PingType.new "custom" ((1 : Nat) != 0)) ∧
    (PingType.new "custom" ((1 : Nat) != 0)).name = "custom" ∧
    ((PingType.new "custom" ((1 : Nat) != 0)).include_client_id = true ↔
      (1 : Nat) ≠ 0) :=
  ⟨(c10_new_ping_type "custom" 1).1,
   (c10_new_ping_type "custom" 1).2.2 (PingType.new "custom" ((1 : Nat) != 0)) rfl⟩
